import Mathlib

/-!
Shallow embedding of the SwineTech backend core: the booking decision,
sale creation and listing management endpoints from Backend/app/main.py
together with the table declarations of Backend/app/models.py, and the
OTP plus email-verification protocol from Backend/app/otp2.py with the
row layout of app/otp.py and the defaults of app/config.py.

Database tables are lists of rows; each endpoint is a pure function from
a database state (plus its request inputs) to either an HTTP error or an
updated state together with the returned row. A commit is the returned
state; an error raised before the commit leaves the state unchanged.
Naive UTC datetimes are modelled as natural numbers counting seconds;
dates as natural day ordinals; SQL Numeric columns as integers.
-/

deriving instance DecidableEq for Except

/-- An HTTPException as raised by the FastAPI handlers: status code and
detail string. -/
structure HTTPError where
  statusCode : Nat
  detail : String
deriving DecidableEq

/-- models.py: class ListingStatus. -/
inductive ListingStatus where
  | available
  | reserved
  | sold
  | removed
deriving DecidableEq

/-- models.py: class SaleType. -/
inductive SaleType where
  | market
  | lechon
deriving DecidableEq

/-- models.py: class AvailablePig (one listing row). The server managed
created_at and updated_at columns are never read by the endpoints and
are omitted. -/
structure Listing where
  id : Nat
  pigsId : Nat
  weightKg : Int
  saleType : SaleType
  status : ListingStatus
  listedBy : Option Nat
  notes : Option String
deriving DecidableEq

/-- models.py: class Booking. The status column is a String(20) with
default "pending"; the endpoints compare it case insensitively. -/
structure Booking where
  id : Nat
  clientId : Nat
  type : String
  itemDetails : Option String
  status : String
  bookingDate : Nat
  approvedBy : Option Nat
deriving DecidableEq

/-- models.py: class BookingPig, the booking to pig junction table with
composite primary key (booking_id, pigs_id). -/
structure BookingPigRow where
  bookingId : Nat
  pigsId : Nat
deriving DecidableEq

/-- models.py: class Sale. booking_id is declared as a nullable foreign
key with index=True and no UniqueConstraint. -/
structure SaleRow where
  id : Nat
  bookingId : Option Nat
  clientId : Option Nat
  itemType : String
  itemDescription : Option String
  totalAmount : Int
  paymentDate : Nat
  recordedBy : Option Nat
deriving DecidableEq

/-- models.py: class ReservationReceipt, which does declare
UniqueConstraint("booking_id"). The JSON payload is stored as text. -/
structure ReservationReceipt where
  id : Nat
  bookingId : Nat
  receiptData : String
deriving DecidableEq

/-- The relational state touched by the booking, listing and sale
endpoints. pigs is the set of existing pig primary keys; the next
counters model autoincrement primary keys. -/
structure DB where
  pigs : List Nat
  bookings : List Booking
  bookingPigs : List BookingPigRow
  listings : List Listing
  sales : List SaleRow
  receipts : List ReservationReceipt
  nextListingId : Nat
  nextSaleId : Nat
  nextReceiptId : Nat
deriving DecidableEq

/-- schemas.py: class BookingDecisionIn, decision is the literal
"approved" or "declined". -/
inductive Decision where
  | approved
  | declined
deriving DecidableEq

/-- schemas.py: class SaleIn. -/
structure SaleIn where
  bookingId : Option Nat
  itemType : String
  itemDescription : Option String
  totalAmount : Int
  paymentDate : Nat
deriving DecidableEq

/-- schemas.py: class AvailablePigIn. -/
structure AvailablePigIn where
  pigsId : Nat
  weightKg : Int
  saleType : SaleType
  notes : Option String
deriving DecidableEq

/-- schemas.py: class AvailablePigUpdate, dumped with exclude_unset so a
field that was not submitted is none. main.py additionally guards a
pigs_id key in the payload, so the payload is modelled with that field
as well. -/
structure AvailablePigUpdate where
  pigsId : Option Nat
  weightKg : Option Int
  saleType : Option SaleType
  status : Option ListingStatus
  notes : Option String
deriving DecidableEq

/-- main.py: the pig ids linked to a booking through the booking_pigs
junction (select BookingPig.pigs_id where booking_id matches). -/
def bookingPigIds (db : DB) (bookingId : Nat) : List Nat :=
  (db.bookingPigs.filter (fun bp => bp.bookingId == bookingId)).map (fun bp => bp.pigsId)

/-- Python str.lower, character by character. -/
def pyLower (s : String) : String :=
  ⟨s.toList.map Char.toLower⟩

/-- Rendering of an optional user id inside the receipt snapshot. -/
def optNatStr (o : Option Nat) : String :=
  match o with
  | some n => toString n
  | none => "null"

/-- main.py: the JSON payload serialized into a ReservationReceipt by
_ensure_receipt_for_booking. The generated_at wall clock entry is
server time and is omitted from the model. -/
def receiptPayload (b : Booking) : String :=
  "receipt_no=RCPT-" ++ toString b.id ++ ";client_id=" ++ toString b.clientId ++
  ";type=" ++ b.type ++ ";booking_date=" ++ toString b.bookingDate ++
  ";status=" ++ b.status ++ ";approved_by=" ++ optNatStr b.approvedBy

/-- main.py: _ensure_receipt_for_booking. Idempotent: returns the state
unchanged when a receipt row for the booking already exists, otherwise
adds one. -/
def ensure_receipt_for_booking (db : DB) (b : Booking) : DB :=
  if (db.receipts.find? (fun r => r.bookingId == b.id)).isSome then db
  else { db with
          receipts := db.receipts ++ [⟨db.nextReceiptId, b.id, receiptPayload b⟩],
          nextReceiptId := db.nextReceiptId + 1 }

/-- main.py: decide_booking (POST /bookings/id/decision). Fails 404 when
the booking is absent; otherwise sets the status to the decision and the
approver to the caller, with no check of the current status. On approval
it flips the linked listings that are currently available to reserved
and idempotently ensures a receipt; the commit covers all of it. -/
def decide_booking (db : DB) (bookingId : Nat) (decision : Decision) (userId : Nat) :
    Except HTTPError (DB × Booking) :=
  match db.bookings.find? (fun b => b.id == bookingId) with
  | none => .error ⟨404, "booking not found"⟩
  | some booking =>
    match decision with
    | .approved =>
      let booking := { booking with status := "approved", approvedBy := some userId }
      let pigsIds := bookingPigIds db bookingId
      let listings :=
        if pigsIds.isEmpty then db.listings
        else db.listings.map (fun l =>
          if pigsIds.contains l.pigsId ∧ l.status = ListingStatus.available
          then { l with status := ListingStatus.reserved } else l)
      let db1 := { db with listings := listings }
      let db2 := ensure_receipt_for_booking db1 booking
      let db3 := { db2 with
                    bookings := db2.bookings.map (fun b => if b.id == bookingId then booking else b) }
      .ok (db3, booking)
    | .declined =>
      let booking := { booking with status := "declined", approvedBy := some userId }
      let db1 := { db with
                    bookings := db.bookings.map (fun b => if b.id == bookingId then booking else b) }
      .ok (db1, booking)

/-- main.py: create_sale (POST /sales). data.booking_id is checked for
truthiness (None and 0 are both falsy in Python), the booking must be
approved, the booking must not already have a sale, the linked pig set
must be nonempty, the listing rows for that pig set must match it in
count, none may be sold; then the sale row is inserted and every listing
for the pig set still in available or reserved is flipped to sold, in
one commit. First, step 3 of the handler: the listing rows (of any
status) whose pig is linked to the booking. -/
def saleListings (db : DB) (bid : Nat) : List Listing :=
  db.listings.filter (fun l => (bookingPigIds db bid).contains l.pigsId)

/-- main.py create_sale step 3: the pig ids among those listings whose
status is already sold. -/
def alreadySoldIds (db : DB) (bid : Nat) : List Nat :=
  ((saleListings db bid).filter (fun l => l.status == ListingStatus.sold)).map (fun l => l.pigsId)

/-- main.py: create_sale (POST /sales), continued from the note above. -/
def create_sale (db : DB) (data : SaleIn) (me : Nat) : Except HTTPError (DB × SaleRow) :=
  match data.bookingId with
  | none => .error ⟨400, "booking_id does not exist"⟩
  | some bid =>
    if bid = 0 then .error ⟨400, "booking_id does not exist"⟩
    else
      match db.bookings.find? (fun b => b.id == bid) with
      | none => .error ⟨400, "booking_id does not exist"⟩
      | some booking =>
        if pyLower booking.status ≠ "approved" then
          .error ⟨409, "Booking must be approved before sale"⟩
        else if (db.sales.find? (fun s => s.bookingId == some bid)).isSome then
          .error ⟨409, "Sale already exists for this booking"⟩
        else if (bookingPigIds db bid).isEmpty then
          .error ⟨400, "No pigs linked to booking"⟩
        else if saleListings db bid = [] ∨
            (saleListings db bid).length ≠ (bookingPigIds db bid).length then
          .error ⟨400, "Some pigs do not have an available listing"⟩
        else if alreadySoldIds db bid ≠ [] then
          .error ⟨409, "Pigs already sold: " ++ toString (alreadySoldIds db bid)⟩
        else
          let sale : SaleRow :=
            ⟨db.nextSaleId, some bid, some booking.clientId, data.itemType,
             data.itemDescription, data.totalAmount, data.paymentDate, some me⟩
          let listings2 := db.listings.map (fun l =>
            if (bookingPigIds db bid).contains l.pigsId ∧
                (l.status = ListingStatus.available ∨ l.status = ListingStatus.reserved)
            then { l with status := ListingStatus.sold } else l)
          .ok ({ db with
                  sales := db.sales ++ [sale],
                  listings := listings2,
                  nextSaleId := db.nextSaleId + 1 }, sale)

/-- main.py: create_available_pig (POST /available-pigs). Requires an
existing pig and positive weight, and fails 409 when the pig already has
a listing in the available or reserved status; otherwise inserts a new
row in status available. -/
def create_available_pig (db : DB) (data : AvailablePigIn) (me : Nat) :
    Except HTTPError (DB × Listing) :=
  if ¬ db.pigs.contains data.pigsId then .error ⟨400, "pig_id does not exist"⟩
  else if data.weightKg ≤ 0 then .error ⟨400, "weight_kg must be > 0"⟩
  else if (db.listings.find? (fun l => l.pigsId == data.pigsId &&
            (l.status == ListingStatus.available || l.status == ListingStatus.reserved))).isSome then
    .error ⟨409, "pig is already listed (available/reserved)"⟩
  else
    let obj : Listing :=
      ⟨db.nextListingId, data.pigsId, data.weightKg, data.saleType,
       ListingStatus.available, some me, data.notes⟩
    .ok ({ db with listings := db.listings ++ [obj], nextListingId := db.nextListingId + 1 }, obj)

/-- main.py: the setattr loop of update_available_pig applied to the
fetched listing: every field present in the payload overwrites the
stored one, including the status. -/
def applyListingUpdate (obj : Listing) (data : AvailablePigUpdate) : Listing :=
  { obj with
      pigsId := data.pigsId.getD obj.pigsId,
      weightKg := data.weightKg.getD obj.weightKg,
      saleType := data.saleType.getD obj.saleType,
      status := data.status.getD obj.status,
      notes := match data.notes with | some n => some n | none => obj.notes }

/-- main.py: update_available_pig (PUT /available-pigs/id). Fails 404
when the listing is absent. When the payload carries a pigs_id it must
exist and must not have another active listing; all other fields,
including status, are applied with no further check. -/
def update_available_pig (db : DB) (listingId : Nat) (data : AvailablePigUpdate) (_me : Nat) :
    Except HTTPError (DB × Listing) :=
  match db.listings.find? (fun l => l.id == listingId) with
  | none => .error ⟨404, "listing not found"⟩
  | some obj =>
    let guardErr : Option HTTPError :=
      match data.pigsId with
      | none => none
      | some p =>
        if ¬ db.pigs.contains p then some ⟨400, "pigs_id does not exist"⟩
        else if (db.listings.find? (fun l => l.pigsId == p &&
                  (l.status == ListingStatus.available || l.status == ListingStatus.reserved) &&
                  l.id != listingId)).isSome then
          some ⟨409, "new pigs_id is already listed"⟩
        else none
    match guardErr with
    | some e => .error e
    | none =>
      let obj2 := applyListingUpdate obj data
      .ok ({ db with listings := db.listings.map (fun l => if l.id == listingId then obj2 else l) },
           obj2)

/-- The uniqueness declarations a table makes on its booking reference
column, read off models.py. -/
structure TableUniqueSpec where
  uniqueBookingId : Bool
deriving DecidableEq

/-- models.py: class Sale declares booking_id with ForeignKey,
nullable=True and index=True only; there is no UniqueConstraint and no
unique=True on the column. -/
def salesTableSpec : TableUniqueSpec := { uniqueBookingId := false }

/-- models.py: class ReservationReceipt declares
UniqueConstraint("booking_id", name="uq_receipt_booking"). -/
def receiptsTableSpec : TableUniqueSpec := { uniqueBookingId := true }

/-- Whether the schema level constraints reject inserting a row whose
booking reference is bid into a table already holding the given booking
references. -/
def insertRejectedByUnique (spec : TableUniqueSpec) (existing : List (Option Nat))
    (bid : Option Nat) : Bool :=
  spec.uniqueBookingId && existing.contains bid

/-- config.py: class Settings, the fields consumed by otp2.py with their
declared defaults. -/
structure OtpSettings where
  APP_SECRET : String
  OTP_CODE_LENGTH : Nat
  OTP_EXP_MINUTES : Nat
  OTP_RESEND_COOLDOWN_SECONDS : Nat
  OTP_MAX_ATTEMPTS : Nat
deriving DecidableEq

/-- config.py defaults: APP_SECRET "super_long_random_secret",
OTP_CODE_LENGTH 6, OTP_EXP_MINUTES 5, OTP_RESEND_COOLDOWN_SECONDS 60,
OTP_MAX_ATTEMPTS 3. -/
def defaultSettings : OtpSettings :=
  ⟨"super_long_random_secret", 6, 5, 60, 3⟩

/-- otp2.py: hash_otp computes hmac.new(key, msg, sha256).hexdigest().
The digest itself cannot be shallow embedded; it is modelled as an
opaque deterministic keyed encoding, injective in the message for a
fixed key, which is how the protocol uses it. -/
def hash_otp (key msg : String) : String :=
  "hmac-sha256(" ++ key ++ "|" ++ msg ++ ")"

/-- Python str.strip on the list of characters: drop leading
whitespace, then drop trailing whitespace. -/
def lstripL (l : List Char) : List Char :=
  l.dropWhile Char.isWhitespace

/-- Drop trailing whitespace characters. -/
def rstripL (l : List Char) : List Char :=
  (l.reverse.dropWhile Char.isWhitespace).reverse

/-- Python str.strip: remove leading and trailing whitespace. -/
def pyStrip (s : String) : String :=
  ⟨rstripL (lstripL s.toList)⟩

/-- Python str.isdigit: nonempty and every character a digit. -/
def pyIsdigit (s : String) : Bool :=
  !s.toList.isEmpty && s.toList.all Char.isDigit

/-- otp2.py verify_otp line 84: code.isdigit() and
len(code) == settings.OTP_CODE_LENGTH. -/
def isValidOtpFormat (s : OtpSettings) (code : String) : Bool :=
  pyIsdigit code && code.length == s.OTP_CODE_LENGTH

/-- otp.py: class EmailOTP, one row per issuance. attempts, resend_after
and last_sent_at are nullable columns and otp2.py guards them against
None, so they are modelled as options. -/
structure EmailOTP where
  id : Nat
  email : String
  purpose : String
  hashed_code : String
  expires_at : Nat
  attempts : Option Nat
  resend_after : Option Nat
  superseded : Bool
  last_sent_at : Option Nat
deriving DecidableEq

/-- otp.py: class EmailVerification, the single use token row minted on
OTP success. -/
structure EmailVerification where
  id : Nat
  email : String
  purpose : String
  jti : String
  issued_at : Nat
  expires_at : Nat
  used : Bool
  used_at : Option Nat
deriving DecidableEq

/-- The relational state touched by otp2.py. -/
structure OtpDB where
  otps : List EmailOTP
  verifications : List EmailVerification
  nextOtpId : Nat
  nextEvId : Nat
deriving DecidableEq

/-- SQLAlchemy order_by(EmailOTP.id.desc()).first(): the row with the
greatest id, the first such one on (impossible for a primary key) ties. -/
def latestOtpById (l : List EmailOTP) : Option EmailOTP :=
  l.foldl (fun acc r =>
    match acc with
    | none => some r
    | some b => if b.id < r.id then some r else some b) none

/-- order_by(EmailVerification.id.desc()).first() over a list of token
rows. -/
def latestEvById (l : List EmailVerification) : Option EmailVerification :=
  l.foldl (fun acc r =>
    match acc with
    | none => some r
    | some b => if b.id < r.id then some r else some b) none

/-- The active rows of the email_otp table for one (email, purpose)
pair: superseded == False. -/
def activeOtps (db : OtpDB) (email purpose : String) : List EmailOTP :=
  db.otps.filter (fun r => r.email == email && (r.purpose == purpose && r.superseded == false))

/-- otp2.py: start_otp. The generated random numeric code is an input
(the RNG is mocked); now is the naive UTC clock in seconds. Marks every
active row for (email, purpose) superseded, inserts the new row, and
returns the raw code with the cooldown, all in one commit. There is no
error path and no check of any stored resend_after value. -/
def start_otp (s : OtpSettings) (db : OtpDB) (email purpose : String) (now : Nat)
    (code : String) : OtpDB × String × Nat :=
  let hashed := hash_otp s.APP_SECRET code
  let expires_at := now + s.OTP_EXP_MINUTES * 60
  let resend_after := now + s.OTP_RESEND_COOLDOWN_SECONDS
  let otps1 := db.otps.map (fun r =>
    if r.email == email && (r.purpose == purpose && r.superseded == false)
    then { r with superseded := true } else r)
  let otp : EmailOTP :=
    ⟨db.nextOtpId, email, purpose, hashed, expires_at, some 0, some resend_after, false, some now⟩
  ({ db with otps := otps1 ++ [otp], nextOtpId := db.nextOtpId + 1 }, code,
    s.OTP_RESEND_COOLDOWN_SECONDS)

/-- The (ok, payload) pair returned by otp2.py verify_otp: either a
failure detail or the minted email_verification_token. -/
inductive VerifyResult where
  | failure (detail : String)
  | success (token : String)
deriving DecidableEq

/-- otp2.py: the latest non superseded OTP row for (email, purpose). -/
def latestActiveOtp (db : OtpDB) (email purpose : String) : Option EmailOTP :=
  latestOtpById (activeOtps db email purpose)

/-- otp2.py: verify_otp. The submitted code (None modelled as no value)
is stripped, format checked, then the latest active record is checked
for expiry and the attempt ceiling before the hashes are compared; a
mismatch bumps attempts, a match mints an EmailVerification row whose
fresh uuid jti is an input. -/
def verify_otp (s : OtpSettings) (db : OtpDB) (email purpose : String)
    (code? : Option String) (now : Nat) (jti : String) : OtpDB × VerifyResult :=
  let code := pyStrip (code?.getD "")
  if ¬ isValidOtpFormat s code then (db, .failure "Invalid code.")
  else
    match latestActiveOtp db email purpose with
    | none => (db, .failure "No active code. Please request a new one.")
    | some rec =>
      if rec.expires_at < now then (db, .failure "Code expired. Please request a new one.")
      else if (match rec.attempts with
               | some a => decide (s.OTP_MAX_ATTEMPTS ≤ a)
               | none => false) then
        (db, .failure "Too many attempts. Please request a new code.")
      else if rec.hashed_code ≠ hash_otp s.APP_SECRET code then
        ({ db with otps := db.otps.map (fun r =>
            if r.id == rec.id then { r with attempts := some (r.attempts.getD 0 + 1) } else r) },
         .failure "Invalid code.")
      else
        let ev : EmailVerification :=
          ⟨db.nextEvId, email, purpose, jti, now, now + 15 * 60, false, none⟩
        ({ db with verifications := db.verifications ++ [ev], nextEvId := db.nextEvId + 1 },
         .success jti)

/-- otp2.py verify_email_token, consumption step: set used True and
used_at now on the looked up token row. -/
def consumeEv (db : OtpDB) (evId : Nat) (now : Nat) : OtpDB :=
  { db with verifications := db.verifications.map (fun e =>
      if e.id == evId then { e with used := true, used_at := some now } else e) }

/-- otp2.py: verify_email_token. Looks up the latest row matching the
jti, email, purpose and used == False; fails when none matches or the
row is expired; otherwise consumes it (used True, used_at now). -/
def verify_email_token (db : OtpDB) (email purpose token : String) (now : Nat) :
    OtpDB × Bool × String :=
  match latestEvById (db.verifications.filter (fun e =>
      e.jti == token && (e.email == email && (e.purpose == purpose && e.used == false)))) with
  | none => (db, false, "Invalid or already used verification token.")
  | some ev =>
    if ev.expires_at < now then (db, false, "Verification token expired.")
    else (consumeEv db ev.id now, true, "ok")

/-! Helper lemmas. -/

/-- dropWhile is idempotent. -/
theorem dropWhile_idem {α : Type} (p : α → Bool) (l : List α) :
    (l.dropWhile p).dropWhile p = l.dropWhile p := by
  induction l with
  | nil => rfl
  | cons a t ih =>
    by_cases h : p a
    · simp [List.dropWhile_cons, h, ih]
    · simp [List.dropWhile_cons, h]

/-- The head surviving a dropWhile fails the predicate. -/
theorem dropWhile_cons_false {α : Type} {p : α → Bool} {l : List α} {a : α} {t : List α}
    (h : l.dropWhile p = a :: t) : p a = false := by
  induction l with
  | nil => simp [List.dropWhile] at h
  | cons b r ih =>
    rw [List.dropWhile_cons] at h
    by_cases hb : p b
    · rw [if_pos hb] at h
      exact ih h
    · rw [if_neg hb] at h
      obtain ⟨h1, _⟩ := List.cons.injEq .. ▸ h
      exact h1 ▸ Bool.eq_false_iff.mpr hb

/-- Left stripping is idempotent. -/
theorem lstrip_idem (l : List Char) : lstripL (lstripL l) = lstripL l := by
  unfold lstripL
  exact dropWhile_idem _ _

/-- A list that is already left stripped stays left stripped after a
right strip. -/
theorem lstrip_rstrip {m : List Char} (h : lstripL m = m) :
    lstripL (rstripL m) = rstripL m := by
  cases hr : rstripL m with
  | nil => simp [lstripL]
  | cons a t =>
    set w : List Char := (m.reverse.takeWhile Char.isWhitespace).reverse with hw
    have hsplit : m = rstripL m ++ w := by
      rw [hw]
      unfold rstripL
      conv_lhs => rw [← List.reverse_reverse m,
        ← List.takeWhile_append_dropWhile Char.isWhitespace m.reverse]
      rw [List.reverse_append]
    have hm : m.dropWhile Char.isWhitespace = a :: (t ++ w) := by
      have h2 : m = a :: (t ++ w) := by
        conv_lhs => rw [hsplit, hr]
        exact List.cons_append a t w
      calc m.dropWhile Char.isWhitespace = m := h
        _ = _ := h2
    have hpa : Char.isWhitespace a = false := dropWhile_cons_false hm
    simp [lstripL, List.dropWhile_cons, hpa]

/-- Right stripping is idempotent. -/
theorem rstrip_idem (m : List Char) : rstripL (rstripL m) = rstripL m := by
  unfold rstripL
  rw [List.reverse_reverse, dropWhile_idem]

/-- Python str.strip is idempotent. -/
theorem pyStrip_idem (s : String) : pyStrip (pyStrip s) = pyStrip s := by
  unfold pyStrip
  show String.mk (rstripL (lstripL (rstripL (lstripL s.toList)))) = _
  rw [lstrip_rstrip (lstrip_idem _), rstrip_idem]

/-- If a filter is empty, the filter by a conjoined predicate is too. -/
theorem filter_conj_nil {α : Type} {l : List α} {J Q : α → Bool} (h : l.filter J = []) :
    l.filter (fun a => J a && Q a) = [] := by
  rw [List.filter_eq_nil_iff] at h ⊢
  intro a ha
  simp [h a ha]

/-- Strengthening the predicate of a singleton filter by a condition the
survivor satisfies keeps the singleton. -/
theorem filter_strengthen {α : Type} {l : List α} {J Q : α → Bool} {x : α}
    (h : l.filter J = [x]) (hq : Q x = true) :
    l.filter (fun a => J a && Q a) = [x] := by
  induction l with
  | nil => simp at h
  | cons b r ih =>
    rw [List.filter_cons] at h ⊢
    by_cases hb : J b
    · rw [if_pos hb] at h
      obtain ⟨h1, h2⟩ := List.cons.injEq .. ▸ h
      subst h1
      rw [if_pos (by simp [hb, hq])]
      rw [filter_conj_nil h2]
    · rw [if_neg hb] at h
      rw [if_neg (by simp [hb])]
      exact ih h

/-- ensure_receipt_for_booking never changes the listings table. -/
theorem ensure_receipt_listings (db : DB) (b : Booking) :
    (ensure_receipt_for_booking db b).listings = db.listings := by
  unfold ensure_receipt_for_booking
  split <;> rfl

/-- ensure_receipt_for_booking never changes the bookings table. -/
theorem ensure_receipt_bookings (db : DB) (b : Booking) :
    (ensure_receipt_for_booking db b).bookings = db.bookings := by
  unfold ensure_receipt_for_booking
  split <;> rfl

/-! Theorems for the OTP protocol claims. -/

/-- Claim C10: verify_otp strips leading and trailing whitespace from
the submitted code before length and digit validation and hashing, so
submitting any string behaves identically to submitting its stripped
form; a None submission is treated as the empty string and rejected as
an invalid code. -/
theorem verify_otp_strip_equiv (s : OtpSettings) (db : OtpDB) (email purpose : String)
    (now : Nat) (jti : String) :
    (∀ code : String,
      verify_otp s db email purpose (some code) now jti =
        verify_otp s db email purpose (some (pyStrip code)) now jti) ∧
    (verify_otp s db email purpose none now jti =
      verify_otp s db email purpose (some "") now jti) ∧
    (verify_otp s db email purpose none now jti = (db, .failure "Invalid code.")) := by
  refine ⟨fun code => ?_, rfl, ?_⟩
  · simp only [verify_otp, Option.getD_some, pyStrip_idem]
  · have hc : isValidOtpFormat s (pyStrip ((none : Option String).getD "")) = false := rfl
    unfold verify_otp
    rw [if_pos (by rw [hc]; simp)]

/-- Claim C7: after start_otp, exactly one OTP row for the pair has
superseded false, namely the newly inserted one, and every previously
active row for the pair is now stored with superseded true; the model
performs both in the one state transition that start_otp returns. -/
theorem start_otp_supersedes (s : OtpSettings) (db : OtpDB) (email purpose : String)
    (now : Nat) (code : String) :
    activeOtps (start_otp s db email purpose now code).1 email purpose =
      [⟨db.nextOtpId, email, purpose, hash_otp s.APP_SECRET code, now + s.OTP_EXP_MINUTES * 60,
        some 0, some (now + s.OTP_RESEND_COOLDOWN_SECONDS), false, some now⟩] ∧
    ∀ r ∈ db.otps, r.email = email → r.purpose = purpose → r.superseded = false →
      { r with superseded := true } ∈ (start_otp s db email purpose now code).1.otps := by
  constructor
  · show (activeOtps
      { db with
          otps := (db.otps.map (fun r =>
            if r.email == email && (r.purpose == purpose && r.superseded == false)
            then { r with superseded := true } else r)) ++
            [⟨db.nextOtpId, email, purpose, hash_otp s.APP_SECRET code,
              now + s.OTP_EXP_MINUTES * 60, some 0,
              some (now + s.OTP_RESEND_COOLDOWN_SECONDS), false, some now⟩],
          nextOtpId := db.nextOtpId + 1 } email purpose) = _
    unfold activeOtps
    rw [List.filter_append]
    have h1 : (db.otps.map (fun r =>
        if r.email == email && (r.purpose == purpose && r.superseded == false)
        then { r with superseded := true } else r)).filter
          (fun r => r.email == email && (r.purpose == purpose && r.superseded == false)) = [] := by
      rw [List.filter_eq_nil_iff]
      intro x hx
      obtain ⟨r, hr, rfl⟩ := List.mem_map.mp hx
      split
      · simp
      · rename_i hc
        exact hc
    rw [h1]
    simp
  · intro r hr he hp hs
    show _ ∈ (db.otps.map (fun r =>
        if r.email == email && (r.purpose == purpose && r.superseded == false)
        then { r with superseded := true } else r)) ++ _
    apply List.mem_append_left
    apply List.mem_map.mpr
    refine ⟨r, hr, ?_⟩
    split
    · rfl
    · rename_i hc
      exact absurd (by simp [he, hp, hs]) hc

/-- Amended claim C4: start_otp computes and stores the resend cooldown
timestamp on the new row and returns the cooldown, but it never rejects
an issuance: on any state, including one whose active record has a
resend_after still in the future, it inserts a fresh row and returns the
new raw code. -/
theorem start_otp_never_rejects (s : OtpSettings) (db : OtpDB) (email purpose : String)
    (now : Nat) (code : String) :
    (start_otp s db email purpose now code).2 = (code, s.OTP_RESEND_COOLDOWN_SECONDS) ∧
    (start_otp s db email purpose now code).1.otps.length = db.otps.length + 1 ∧
    (⟨db.nextOtpId, email, purpose, hash_otp s.APP_SECRET code, now + s.OTP_EXP_MINUTES * 60,
      some 0, some (now + s.OTP_RESEND_COOLDOWN_SECONDS), false, some now⟩ : EmailOTP) ∈
        (start_otp s db email purpose now code).1.otps := by
  refine ⟨rfl, ?_, ?_⟩
  · show ((db.otps.map _) ++ [_]).length = _
    simp
  · show _ ∈ (db.otps.map _) ++ [_]
    simp

/-- Claim C8: verify_otp fails with the rate limit message whenever the
active record has accumulated at least OTP_MAX_ATTEMPTS attempts, even
when the submitted code hashes to the stored hash; the state is returned
unchanged, so no verification token is minted. -/
theorem verify_otp_rate_limited (s : OtpSettings) (db : OtpDB) (email purpose : String)
    (code? : Option String) (now : Nat) (jti : String) (rec : EmailOTP) (a : Nat)
    (hfmt : isValidOtpFormat s (pyStrip (code?.getD "")) = true)
    (hrec : latestActiveOtp db email purpose = some rec)
    (hexp : ¬ rec.expires_at < now)
    (hatt : rec.attempts = some a)
    (hmax : s.OTP_MAX_ATTEMPTS ≤ a)
    (_hmatch : rec.hashed_code = hash_otp s.APP_SECRET (pyStrip (code?.getD ""))) :
    verify_otp s db email purpose code? now jti =
      (db, .failure "Too many attempts. Please request a new code.") := by
  unfold verify_otp
  rw [if_neg (by simp [hfmt]), hrec]
  simp [hexp, hatt, hmax]

/-- Claim C9: when a token row uniquely matching the jti is redeemable
(matching email and purpose, unused, unexpired), the first
verify_email_token call succeeds and marks it used, and any later call
with the same token fails with the invalid or already used message and
returns the state unchanged. -/
theorem verify_email_token_single_use (db : OtpDB) (email purpose token : String)
    (now now2 : Nat) (ev : EmailVerification)
    (hflt : db.verifications.filter (fun e => e.jti == token) = [ev])
    (hem : ev.email = email) (hpu : ev.purpose = purpose) (hus : ev.used = false)
    (hexp : ¬ ev.expires_at < now) :
    verify_email_token db email purpose token now = (consumeEv db ev.id now, true, "ok") ∧
    verify_email_token (consumeEv db ev.id now) email purpose token now2 =
      (consumeEv db ev.id now, false, "Invalid or already used verification token.") := by
  have hfull : db.verifications.filter (fun e =>
      e.jti == token && (e.email == email && (e.purpose == purpose && e.used == false))) = [ev] :=
    filter_strengthen hflt (by simp [hem, hpu, hus])
  constructor
  · unfold verify_email_token
    rw [hfull, show latestEvById [ev] = some ev from rfl]
    simp [hexp]
  · unfold verify_email_token
    have hnil : (consumeEv db ev.id now).verifications.filter (fun e =>
        e.jti == token && (e.email == email && (e.purpose == purpose && e.used == false))) = [] := by
      unfold consumeEv
      rw [List.filter_eq_nil_iff]
      intro x hx
      obtain ⟨e, he_mem, rfl⟩ := List.mem_map.mp hx
      by_cases hj : (e.jti == token) = true
      · have he_ev : e = ev := by
          have hmem2 : e ∈ db.verifications.filter (fun e => e.jti == token) :=
            List.mem_filter.mpr ⟨he_mem, hj⟩
          rw [hflt] at hmem2
          exact List.mem_singleton.mp hmem2
        subst he_ev
        rw [if_pos (by simp)]
        simp
      · have hj2 : (e.jti == token) = false := Bool.eq_false_iff.mpr hj
        split <;> simp [hj2]
    rw [hnil]
    rfl

/-! Theorems for the booking, listing and sale claims. -/

/-- Amended claim C1: decide_booking checks only that the booking
exists; whatever the current status (pending, approved or declined), it
succeeds, overwrites the status with the decision and the approver with
the caller, and stores the result. No Conflict is raised on a repeat
decision; the failure mode of the claim does not exist in the code. -/
theorem decide_booking_overwrites (db : DB) (bid userId : Nat) (decision : Decision)
    (booking : Booking)
    (hfind : db.bookings.find? (fun b => b.id == bid) = some booking) :
    ∃ db2 out, decide_booking db bid decision userId = .ok (db2, out) ∧
      out.status = (match decision with
                    | Decision.approved => "approved"
                    | Decision.declined => "declined") ∧
      out.approvedBy = some userId ∧ out ∈ db2.bookings := by
  have hbid : (booking.id == bid) = true := by
    have h2 := List.find?_some hfind
    exact h2
  have hmem : booking ∈ db.bookings := List.mem_of_find?_eq_some hfind
  cases decision with
  | approved =>
    unfold decide_booking
    rw [hfind]
    refine ⟨_, _, rfl, rfl, rfl, ?_⟩
    simp only [ensure_receipt_bookings]
    exact List.mem_map.mpr ⟨booking, hmem, by simp [hbid]⟩
  | declined =>
    unfold decide_booking
    rw [hfind]
    refine ⟨_, _, rfl, rfl, rfl, ?_⟩
    exact List.mem_map.mpr ⟨booking, hmem, by simp [hbid]⟩

/-- Claim C6: approving a booking transitions exactly the linked pigs
whose current listing status is available to reserved; every other
listing row, including linked pigs in reserved, sold or removed status,
is left untouched, and the operation raises no error. -/
theorem decide_booking_reserves (db : DB) (bid userId : Nat) (booking : Booking)
    (hfind : db.bookings.find? (fun b => b.id == bid) = some booking) :
    ∃ db2 out, decide_booking db bid Decision.approved userId = .ok (db2, out) ∧
      db2.listings.length = db.listings.length ∧
      ∀ (i : Nat) (l : Listing), db.listings[i]? = some l →
        (((bookingPigIds db bid).contains l.pigsId ∧ l.status = ListingStatus.available) →
          db2.listings[i]? = some { l with status := ListingStatus.reserved }) ∧
        (¬ ((bookingPigIds db bid).contains l.pigsId ∧ l.status = ListingStatus.available) →
          db2.listings[i]? = some l) := by
  unfold decide_booking
  rw [hfind]
  refine ⟨_, _, rfl, ?_, ?_⟩
  · simp only [ensure_receipt_listings]
    split
    · rfl
    · exact List.length_map _ _
  · intro i l hl
    simp only [ensure_receipt_listings]
    constructor
    · intro hc
      obtain ⟨hc1, hc2⟩ := hc
      split
      · rename_i hemp
        rw [List.isEmpty_iff] at hemp
        rw [hemp] at hc1
        simp at hc1
      · rw [List.getElem?_map, hl]
        simp only [Option.map_some']
        split
        · rfl
        · rename_i h
          exact absurd ⟨hc1, hc2⟩ h
    · intro hc
      split
      · exact hl
      · rw [List.getElem?_map, hl]
        simp only [Option.map_some']
        split
        · rename_i h
          exact absurd h hc
        · rfl

/-- Amended claim C2: create_available_pig fails Conflict when the pig
already has a listing in available or reserved, and update_available_pig
fails Conflict only when re-pointing pigs_id at a pig with another
active listing; a status field in the update payload is applied with no
check at all, so a sold or removed listing can be set back to available
or reserved in place (which can yield two active listings for one pig,
breaking the invariant of the claim). -/
theorem listing_conflict_guards :
    (∀ (db : DB) (data : AvailablePigIn) (me : Nat),
      db.pigs.contains data.pigsId = true →
      0 < data.weightKg →
      (∃ l ∈ db.listings, l.pigsId = data.pigsId ∧
        (l.status = ListingStatus.available ∨ l.status = ListingStatus.reserved)) →
      create_available_pig db data me =
        .error ⟨409, "pig is already listed (available/reserved)"⟩) ∧
    (∀ (db : DB) (listingId me : Nat) (st : ListingStatus) (obj : Listing),
      db.listings.find? (fun l => l.id == listingId) = some obj →
      ∃ db2, update_available_pig db listingId ⟨none, none, none, some st, none⟩ me =
        .ok (db2, { obj with status := st }) ∧ { obj with status := st } ∈ db2.listings) := by
  constructor
  · intro db data me hpig hw hex
    obtain ⟨l, hl, h1, h2⟩ := hex
    unfold create_available_pig
    rw [if_neg (not_not_intro hpig)]
    rw [if_neg (not_le.mpr hw)]
    rw [if_pos (List.find?_isSome.mpr ⟨l, hl, by rcases h2 with h2 | h2 <;> simp [h1, h2]⟩)]
  · intro db listingId me st obj hfind
    have hid : (obj.id == listingId) = true := by
      have h2 := List.find?_some hfind
      exact h2
    unfold update_available_pig
    rw [hfind]
    refine ⟨_, rfl, ?_⟩
    exact List.mem_map.mpr ⟨obj, List.mem_of_find?_eq_some hfind,
      by simp [hid, applyListingUpdate]⟩

/-- Amended claim C3: create_sale fails Conflict when a Sale row already
references the booking (an application level pre-check); but the Sale
table declares no unique constraint on its booking reference (only an
index), so schema level enforcement does not exist and a duplicate
insert is never rejected by the declared constraints. -/
theorem create_sale_duplicate_guard :
    (∀ (db : DB) (data : SaleIn) (me bid : Nat) (booking : Booking) (sale : SaleRow),
      data.bookingId = some bid → bid ≠ 0 →
      db.bookings.find? (fun b => b.id == bid) = some booking →
      pyLower booking.status = "approved" →
      sale ∈ db.sales → sale.bookingId = some bid →
      create_sale db data me = .error ⟨409, "Sale already exists for this booking"⟩) ∧
    salesTableSpec.uniqueBookingId = false ∧
    (∀ (existing : List (Option Nat)) (b : Option Nat),
      insertRejectedByUnique salesTableSpec existing b = false) := by
  refine ⟨?_, rfl, fun existing b => rfl⟩
  intro db data me bid booking sale hbid hbz hfind happ hmem hsb
  have hs : (db.sales.find? (fun s => s.bookingId == some bid)).isSome = true :=
    List.find?_isSome.mpr ⟨sale, hmem, by simp [hsb]⟩
  unfold create_sale
  rw [hbid]
  simp [hbz, hfind, happ, hs]

/-- Amended claim C5: create_sale detects a missing listing through a
count comparison: when the listing rows for the linked pig set are fewer
than the linked pigs (in particular when listing rows have pairwise
distinct pigs and one linked pig has no listing row at all), it fails
with the ValidationError detail and no state changes; the detection is
only the count comparison, which a pig holding several listing rows can
defeat. -/
theorem create_sale_missing_listing (db : DB) (data : SaleIn) (me bid : Nat)
    (booking : Booking) (q : Nat)
    (hbid : data.bookingId = some bid) (hbz : bid ≠ 0)
    (hfind : db.bookings.find? (fun b => b.id == bid) = some booking)
    (happ : pyLower booking.status = "approved")
    (hnosale : db.sales.find? (fun s => s.bookingId == some bid) = none)
    (hnodupP : (bookingPigIds db bid).Nodup)
    (hnodupL : (db.listings.map (fun l => l.pigsId)).Nodup)
    (hq : q ∈ bookingPigIds db bid)
    (hnol : ∀ l ∈ db.listings, l.pigsId ≠ q) :
    create_sale db data me = .error ⟨400, "Some pigs do not have an available listing"⟩ := by
  have hne : bookingPigIds db bid ≠ [] := by
    intro h
    rw [h] at hq
    exact List.not_mem_nil q hq
  have hempty : (bookingPigIds db bid).isEmpty = false :=
    Bool.eq_false_iff.mpr (fun h => hne (List.isEmpty_iff.mp h))
  have hM_nodup : ((saleListings db bid).map (fun l => l.pigsId)).Nodup :=
    List.Nodup.sublist (List.Sublist.map _ (List.filter_sublist db.listings)) hnodupL
  have hsub : ((saleListings db bid).map (fun l => l.pigsId)).toFinset ⊆
      (bookingPigIds db bid).toFinset.erase q := by
    intro x hx
    rw [List.mem_toFinset] at hx
    obtain ⟨l, hlmem, rfl⟩ := List.mem_map.mp hx
    have hl2 : l ∈ db.listings ∧ l.pigsId ∈ bookingPigIds db bid := by
      simpa [saleListings, List.mem_filter] using hlmem
    rw [Finset.mem_erase]
    exact ⟨hnol l hl2.1, List.mem_toFinset.mpr hl2.2⟩
  have hlen : (saleListings db bid).length < (bookingPigIds db bid).length := by
    calc (saleListings db bid).length
        = ((saleListings db bid).map (fun l => l.pigsId)).length := (List.length_map _ _).symm
      _ = ((saleListings db bid).map (fun l => l.pigsId)).toFinset.card :=
          (List.toFinset_card_of_nodup hM_nodup).symm
      _ ≤ ((bookingPigIds db bid).toFinset.erase q).card := Finset.card_le_card hsub
      _ = (bookingPigIds db bid).toFinset.card - 1 :=
          Finset.card_erase_of_mem (List.mem_toFinset.mpr hq)
      _ < (bookingPigIds db bid).toFinset.card :=
          Nat.sub_lt (Finset.card_pos.mpr ⟨q, List.mem_toFinset.mpr hq⟩) one_pos
      _ = (bookingPigIds db bid).length := List.toFinset_card_of_nodup hnodupP
  have hcond : saleListings db bid = [] ∨
      (saleListings db bid).length ≠ (bookingPigIds db bid).length :=
    Or.inr (Nat.ne_of_lt hlen)
  unfold create_sale
  rw [hbid]
  simp [hbz, hfind, happ, hnosale, hempty, hcond]

/-! Concrete states used by the counterexamples and witnesses. -/

/-- A booking already decided approved. -/
def exC1booking : Booking := ⟨1, 2, "pig", none, "approved", 10, some 7⟩

/-- State holding only the already approved booking. -/
def exC1db : DB := ⟨[], [exC1booking], [], [], [], [], 1, 1, 1⟩

/-- A listing for pig 1 already sold. -/
def exL1 : Listing := ⟨1, 1, 80, SaleType.market, ListingStatus.sold, some 3, none⟩

/-- A second, active listing for the same pig 1. -/
def exL2 : Listing := ⟨2, 1, 90, SaleType.market, ListingStatus.available, some 3, none⟩

/-- State where pig 1 has a sold listing and an available listing. -/
def exC2db : DB := ⟨[1], [], [], [exL1, exL2], [], [], 3, 1, 1⟩

/-- An update payload that only sets status back to available. -/
def exC2upd : AvailablePigUpdate := ⟨none, none, none, some ListingStatus.available, none⟩

/-- An approved booking used by the sale scenarios. -/
def exB5 : Booking := ⟨1, 2, "pig", none, "approved", 10, some 7⟩

/-- State where the approved booking links pigs 1 and 2, pig 1 holds two
available listing rows and pig 2 holds none. -/
def exC5db : DB := ⟨[1, 2], [exB5], [⟨1, 1⟩, ⟨1, 2⟩],
  [⟨1, 1, 80, SaleType.market, ListingStatus.available, some 3, none⟩,
   ⟨2, 1, 90, SaleType.market, ListingStatus.available, some 3, none⟩], [], [], 3, 1, 1⟩

/-- A sale request for booking 1. -/
def exC5data : SaleIn := ⟨some 1, "pig", none, 100, 20⟩

/-- State where the approved booking links pigs 1 and 2, pig 1 holds one
available listing row and pig 2 holds none, with pairwise distinct
listing pigs. -/
def exC5Wdb : DB := ⟨[1, 2], [exB5], [⟨1, 1⟩, ⟨1, 2⟩],
  [⟨1, 1, 80, SaleType.market, ListingStatus.available, some 3, none⟩], [], [], 2, 1, 1⟩

/-- A sale row already recorded for booking 1. -/
def exC3sale : SaleRow := ⟨1, some 1, some 2, "pig", none, 100, 20, some 9⟩

/-- State where booking 1 is approved and already has a sale. -/
def exC3db : DB := ⟨[1], [exB5], [⟨1, 1⟩],
  [⟨1, 1, 80, SaleType.market, ListingStatus.reserved, some 3, none⟩], [exC3sale], [], 2, 2, 1⟩

/-- An active OTP row whose resend_after (100) is in the future of the
call instant (50). -/
def exRec4 : EmailOTP := ⟨1, "a@x.com", "register",
  hash_otp "super_long_random_secret" "123456", 400, some 0, some 100, false, some 40⟩

/-- OTP state holding only that active record. -/
def exC4db : OtpDB := ⟨[exRec4], [], 2, 1⟩

/-- An active OTP row that has already burned all three attempts. -/
def exRec8 : EmailOTP := ⟨1, "a@x.com", "register",
  hash_otp "super_long_random_secret" "123456", 1000, some 3, some 60, false, some 0⟩

/-- OTP state holding only that exhausted record. -/
def exC8db : OtpDB := ⟨[exRec8], [], 2, 1⟩

/-- A fresh, unused email verification token row. -/
def exEv9 : EmailVerification := ⟨1, "a@x.com", "register", "tokT", 0, 900, false, none⟩

/-- OTP state holding only that token row. -/
def exC9db : OtpDB := ⟨[], [exEv9], 1, 2⟩

/-- A pending booking linking pigs 1 (available) and 2 (reserved), with
an unrelated available listing for pig 3. -/
def exC6booking : Booking := ⟨1, 2, "pig", none, "pending", 10, none⟩

/-- State for the approval scenario of claim C6. -/
def exC6db : DB := ⟨[1, 2, 3], [exC6booking], [⟨1, 1⟩, ⟨1, 2⟩],
  [⟨1, 1, 80, SaleType.market, ListingStatus.available, some 3, none⟩,
   ⟨2, 2, 85, SaleType.market, ListingStatus.reserved, some 3, none⟩,
   ⟨3, 3, 90, SaleType.market, ListingStatus.available, some 3, none⟩], [], [], 4, 1, 1⟩

/-! Counterexamples and witnesses. -/

/-- Counterexample to claim C1: the booking of exC1db is already
approved, yet decide_booking with a declined decision does not fail
Conflict; it succeeds and overwrites the status (and approver). -/
theorem decide_booking_no_conflict_counterexample :
    exC1db.bookings.find? (fun b => b.id == 1) = some exC1booking ∧
    exC1booking.status = "approved" ∧
    decide_booking exC1db 1 Decision.declined 9 =
      .ok ({ exC1db with
              bookings := [{ exC1booking with status := "declined", approvedBy := some 9 }] },
           { exC1booking with status := "declined", approvedBy := some 9 }) := by
  decide

/-- Witness for the amended claim C1 at a concrete input. -/
theorem decide_booking_overwrites_witness :
    exC1db.bookings.find? (fun b => b.id == 1) = some exC1booking ∧
    (∃ db2 out, decide_booking exC1db 1 Decision.declined 9 = .ok (db2, out) ∧
      out.status = (match Decision.declined with
                    | Decision.approved => "approved"
                    | Decision.declined => "declined") ∧
      out.approvedBy = some 9 ∧ out ∈ db2.bookings) :=
  ⟨by decide, decide_booking_overwrites exC1db 1 9 Decision.declined exC1booking (by decide)⟩

/-- Counterexample to claim C2: listing 1 of exC2db is sold, yet an
update payload setting status available succeeds and reactivates it in
place, leaving pig 1 with two listings in the active statuses. -/
theorem listing_reactivation_counterexample :
    exL1.status = ListingStatus.sold ∧
    update_available_pig exC2db 1 exC2upd 9 =
      .ok ({ exC2db with listings := [{ exL1 with status := ListingStatus.available }, exL2] },
           { exL1 with status := ListingStatus.available }) ∧
    (({ exC2db with
          listings := [{ exL1 with status := ListingStatus.available }, exL2] } : DB).listings.filter
        (fun l => l.pigsId == 1 &&
          (l.status == ListingStatus.available || l.status == ListingStatus.reserved))).length
      = 2 := by
  decide

/-- Witness for the amended claim C2 at concrete inputs: the create
guard fires on a pig with an active listing, and a status only update on
a sold listing succeeds in place. -/
theorem listing_conflict_guards_witness :
    create_available_pig exC2db ⟨1, 80, SaleType.market, none⟩ 9 =
      .error ⟨409, "pig is already listed (available/reserved)"⟩ ∧
    (∃ db2, update_available_pig exC2db 1 ⟨none, none, none, some ListingStatus.available, none⟩ 9 =
      .ok (db2, { exL1 with status := ListingStatus.available }) ∧
      { exL1 with status := ListingStatus.available } ∈ db2.listings) :=
  ⟨listing_conflict_guards.1 exC2db ⟨1, 80, SaleType.market, none⟩ 9 (by decide) (by decide)
      ⟨exL2, by decide, rfl, Or.inl rfl⟩,
   listing_conflict_guards.2 exC2db 1 9 ListingStatus.available exL1 (by decide)⟩

/-- Counterexample to claim C3: the sales table declares no unique
constraint on the booking reference, so a duplicate booking reference is
not rejected at schema level (contrast the receipts table, whose
declared unique constraint is captured by the same reading). -/
theorem sale_schema_unique_counterexample :
    salesTableSpec.uniqueBookingId = false ∧
    insertRejectedByUnique salesTableSpec [some 1] (some 1) = false ∧
    receiptsTableSpec.uniqueBookingId = true ∧
    insertRejectedByUnique receiptsTableSpec [some 1] (some 1) = true := by
  decide

/-- Witness for the amended claim C3 at a concrete input. -/
theorem create_sale_duplicate_guard_witness :
    create_sale exC3db exC5data 9 = .error ⟨409, "Sale already exists for this booking"⟩ :=
  create_sale_duplicate_guard.1 exC3db exC5data 9 1 exB5 exC3sale rfl (by decide) (by decide)
    (by decide) (by decide) rfl

/-- Counterexample to claim C4: at instant 50 the active record allows
resending only from 100, yet start_otp still stores a new active row and
returns the fresh code with the cooldown instead of rejecting. -/
theorem start_otp_cooldown_counterexample :
    exRec4.resend_after = some 100 ∧ exRec4.superseded = false ∧ (50 : Nat) < 100 ∧
    (start_otp defaultSettings exC4db "a@x.com" "register" 50 "654321").1.otps.length = 2 ∧
    (start_otp defaultSettings exC4db "a@x.com" "register" 50 "654321").2 = ("654321", 60) ∧
    activeOtps (start_otp defaultSettings exC4db "a@x.com" "register" 50 "654321").1
        "a@x.com" "register" =
      [⟨2, "a@x.com", "register", hash_otp "super_long_random_secret" "654321", 350,
        some 0, some 110, false, some 50⟩] := by
  decide

/-- Counterexample to claim C5: in exC5db the approved booking links pig
2, which has no listing row at all, yet create_sale succeeds and records
a sale, because the two listing rows of pig 1 make the count comparison
pass. -/
theorem create_sale_missing_listing_counterexample :
    exB5.status = "approved" ∧
    (2 : Nat) ∈ bookingPigIds exC5db 1 ∧
    (∀ l ∈ exC5db.listings, l.pigsId ≠ 2) ∧
    (create_sale exC5db exC5data 9).isOk = true ∧
    (match create_sale exC5db exC5data 9 with
     | .ok (db2, _) => db2.sales.length
     | .error _ => 0) = 1 := by
  decide

/-- Witness for the amended claim C5 at a concrete input. -/
theorem create_sale_missing_listing_witness :
    (2 : Nat) ∈ bookingPigIds exC5Wdb 1 ∧
    (∀ l ∈ exC5Wdb.listings, l.pigsId ≠ 2) ∧
    create_sale exC5Wdb exC5data 9 =
      .error ⟨400, "Some pigs do not have an available listing"⟩ :=
  ⟨by decide, by decide,
   create_sale_missing_listing exC5Wdb exC5data 9 1 exB5 2 rfl (by decide) (by decide)
     (by decide) rfl (by decide) (by decide) (by decide) (by decide)⟩

/-- Witness for claim C6 at a concrete input. -/
theorem decide_booking_reserves_witness :
    exC6db.bookings.find? (fun b => b.id == 1) = some exC6booking ∧
    (∃ db2 out, decide_booking exC6db 1 Decision.approved 9 = .ok (db2, out) ∧
      db2.listings.length = exC6db.listings.length ∧
      ∀ (i : Nat) (l : Listing), exC6db.listings[i]? = some l →
        (((bookingPigIds exC6db 1).contains l.pigsId ∧ l.status = ListingStatus.available) →
          db2.listings[i]? = some { l with status := ListingStatus.reserved }) ∧
        (¬ ((bookingPigIds exC6db 1).contains l.pigsId ∧ l.status = ListingStatus.available) →
          db2.listings[i]? = some l)) :=
  ⟨by decide, decide_booking_reserves exC6db 1 9 exC6booking (by decide)⟩

/-- Witness for claim C8 at a concrete input: the stored hash matches
the submitted code, yet the exhausted attempt counter makes verify_otp
fail rate limited with no token row added. -/
theorem verify_otp_rate_limited_witness :
    latestActiveOtp exC8db "a@x.com" "register" = some exRec8 ∧
    exRec8.attempts = some 3 ∧
    defaultSettings.OTP_MAX_ATTEMPTS ≤ 3 ∧
    exRec8.hashed_code = hash_otp defaultSettings.APP_SECRET (pyStrip ((some "123456").getD "")) ∧
    verify_otp defaultSettings exC8db "a@x.com" "register" (some "123456") 10 "tok" =
      (exC8db, .failure "Too many attempts. Please request a new code.") :=
  ⟨by decide, rfl, by decide, by decide,
   verify_otp_rate_limited defaultSettings exC8db "a@x.com" "register" (some "123456") 10 "tok"
     exRec8 3 (by decide) (by decide) (by decide) rfl (by decide) (by decide)⟩

/-- Witness for claim C9 at a concrete input. -/
theorem verify_email_token_single_use_witness :
    exC9db.verifications.filter (fun e => e.jti == "tokT") = [exEv9] ∧
    (verify_email_token exC9db "a@x.com" "register" "tokT" 10 =
        (consumeEv exC9db exEv9.id 10, true, "ok") ∧
      verify_email_token (consumeEv exC9db exEv9.id 10) "a@x.com" "register" "tokT" 11 =
        (consumeEv exC9db exEv9.id 10, false, "Invalid or already used verification token.")) :=
  ⟨by decide, verify_email_token_single_use exC9db "a@x.com" "register" "tokT" 10 11 exEv9
    (by decide) rfl rfl rfl (by decide)⟩

/-- Witness for claim C7 at a concrete input. -/
theorem start_otp_supersedes_witness :
    activeOtps (start_otp defaultSettings exC4db "a@x.com" "register" 50 "654321").1
        "a@x.com" "register" =
      [⟨exC4db.nextOtpId, "a@x.com", "register", hash_otp defaultSettings.APP_SECRET "654321",
        50 + defaultSettings.OTP_EXP_MINUTES * 60, some 0,
        some (50 + defaultSettings.OTP_RESEND_COOLDOWN_SECONDS), false, some 50⟩] ∧
    ∀ r ∈ exC4db.otps, r.email = "a@x.com" → r.purpose = "register" → r.superseded = false →
      { r with superseded := true } ∈
        (start_otp defaultSettings exC4db "a@x.com" "register" 50 "654321").1.otps :=
  start_otp_supersedes defaultSettings exC4db "a@x.com" "register" 50 "654321"

/-- Witness for claim C10 at a concrete input. -/
theorem verify_otp_strip_equiv_witness :
    (∀ code : String,
      verify_otp defaultSettings exC8db "a@x.com" "register" (some code) 10 "tok" =
        verify_otp defaultSettings exC8db "a@x.com" "register" (some (pyStrip code)) 10 "tok") ∧
    (verify_otp defaultSettings exC8db "a@x.com" "register" none 10 "tok" =
      verify_otp defaultSettings exC8db "a@x.com" "register" (some "") 10 "tok") ∧
    (verify_otp defaultSettings exC8db "a@x.com" "register" none 10 "tok" =
      (exC8db, .failure "Invalid code.")) :=
  verify_otp_strip_equiv defaultSettings exC8db "a@x.com" "register" 10 "tok"

/-- Witness for the amended claim C4 at a concrete input. -/
theorem start_otp_never_rejects_witness :
    (start_otp defaultSettings exC4db "a@x.com" "register" 50 "654321").2 =
      ("654321", defaultSettings.OTP_RESEND_COOLDOWN_SECONDS) ∧
    (start_otp defaultSettings exC4db "a@x.com" "register" 50 "654321").1.otps.length =
      exC4db.otps.length + 1 ∧
    (⟨exC4db.nextOtpId, "a@x.com", "register", hash_otp defaultSettings.APP_SECRET "654321",
      50 + defaultSettings.OTP_EXP_MINUTES * 60, some 0,
      some (50 + defaultSettings.OTP_RESEND_COOLDOWN_SECONDS), false, some 50⟩ : EmailOTP) ∈
        (start_otp defaultSettings exC4db "a@x.com" "register" 50 "654321").1.otps :=
  start_otp_never_rejects defaultSettings exC4db "a@x.com" "register" 50 "654321"
